import Mathlib

/-!
Shallow embedding of the CineBoard storyboard tool (a React/TypeScript
application) for checking its design spec.  The embedding covers:

* the data model of `types.ts` (`Frame`, `ShotPreset`, `FrameData`,
  `VisualAsset`);
* the fixed preset table `SHOT_TYPE_PRESETS` of `constants.ts`;
* the pure crop/pan math of `StoryboardCard.tsx` (`parsePosition`, the
  crop-rectangle computation, `handleMouseMove`);
* the state-transition core of `App.tsx` (`handleAssetUpload`,
  `removeAsset`, `runAnalysisIfNeeded`, `performRegeneration`,
  `handleFrameChange`, `handleRegenerateFrame`, and the plan/render
  phases of `generateFullStoryboard`);
* the response post-processing of `geminiService.ts`
  (`planStoryboardSequence`).

Asynchronous collaborator calls (image synthesis, asset analysis, plan
requests) are modelled by passing their outcome in as an explicit
`Except String _` argument; JavaScript strings are modelled by `String`,
JavaScript numbers by `ℚ`, and `null`/absent values by `Option`.
-/

deriving instance DecidableEq for Except

namespace CineBoard

/-- Frame record from `types.ts`: one storyboard shot.  `image` is the
data-URL of the rendered picture or `none`, `zoom` is the magnification
percentage, `position` a CSS-style background-position string. -/
structure Frame where
  image : Option String
  shotType : String
  action : String
  dialogue : String
  zoom : ℚ
  position : String
deriving DecidableEq, Repr

/-- ShotPreset from `types.ts`: the default zoom/position pair registered
for a shot type. -/
structure ShotPreset where
  zoom : ℚ
  position : String
deriving DecidableEq, Repr

/-- FrameData from `types.ts`: one entry of the planner's JSON answer;
both fields are optional. -/
structure FrameData where
  shotType : Option String
  action : Option String
deriving DecidableEq, Repr

/-- VisualAsset from `types.ts`: a user supplied reference image. -/
structure VisualAsset where
  id : String
  data : String
  type : String
  label : String
deriving DecidableEq, Repr

/-- SHOT_TYPE_PRESETS from `constants.ts`: the fixed 13-entry table from
shot-type code to its default zoom/position preset. -/
def SHOT_TYPE_PRESETS : List (String × ShotPreset) :=
  [ ("ELS", ⟨100, "center center"⟩),
    ("LS",  ⟨120, "center center"⟩),
    ("FS",  ⟨140, "center center"⟩),
    ("MS",  ⟨180, "center 20%"⟩),
    ("CU",  ⟨240, "center 15%"⟩),
    ("ECU", ⟨350, "center 30%"⟩),
    ("POV", ⟨130, "center center"⟩),
    ("OTS", ⟨160, "20% center"⟩),
    ("LA",  ⟨130, "center bottom"⟩),
    ("HA",  ⟨130, "center top"⟩),
    ("DA",  ⟨120, "center center"⟩),
    ("OH",  ⟨100, "center center"⟩),
    ("BE",  ⟨100, "center center"⟩) ]

/-- Lookup in the preset table, modelling `SHOT_TYPE_PRESETS[key]`. -/
def presetFor (key : String) : Option ShotPreset :=
  SHOT_TYPE_PRESETS.lookup key

/-! Character-level string helpers.  They model the JavaScript string
primitives used by `StoryboardCard.tsx` (`split(' ')`, `endsWith('%')`,
`parseFloat`) on the underlying character list, so that all of them
evaluate inside the kernel. -/

/-- Splitting a character list at every single space, as JavaScript
`str.split(' ')` does; the empty string yields `[""]` and consecutive
spaces yield empty fragments. -/
def splitSpaces : List Char → List (List Char)
  | [] => [[]]
  | c :: rest =>
    let r := splitSpaces rest
    if c = ' ' then [] :: r
    else
      match r with
      | [] => [[c]]
      | h :: t => (c :: h) :: t

/-- String-level wrapper of `splitSpaces`, modelling `posStr.split(' ')`. -/
def splitOnSpace (s : String) : List String :=
  (splitSpaces s.data).map String.mk

/-- Model of JavaScript `p.endsWith('%')`. -/
def endsWithPercent (s : String) : Bool :=
  s.data.getLast? = some '%'

/-- Numeric value of a digit list read in base 10. -/
def digitsToNat (ds : List Char) : Nat :=
  ds.foldl (fun a c => a * 10 + (c.toNat - 48)) 0

/-- Longest digit run at the head of a character list, together with the
rest. -/
def takeDigits : List Char → List Char × List Char
  | [] => ([], [])
  | c :: rest =>
    if c.isDigit then
      let p := takeDigits rest
      (c :: p.1, p.2)
    else ([], c :: rest)

/-- A natural number with an optional leading minus sign, as a rational.
Kept cast-based so that concrete values reduce inside the kernel. -/
def intSigned (neg : Bool) (n : Nat) : ℚ :=
  ((if neg then -(n : ℤ) else (n : ℤ)) : ℚ)

/-- Model of JavaScript `parseFloat` on the decimal forms the card ever
feeds it: an optional sign, an integer part and an optional fractional
part, any trailing garbage (such as the `%` sign) ignored; `none` models
the `NaN` result when no digits are present.  Exponent notation and
leading whitespace, which cannot occur in the position strings the
application builds, are not modelled. -/
def parseFloatChars (cs : List Char) : Option ℚ :=
  let sr : Bool × List Char :=
    match cs with
    | c :: r => if c = '-' then (true, r) else if c = '+' then (false, r) else (false, cs)
    | [] => (false, [])
  let ip := takeDigits sr.2
  match ip.2 with
  | c :: r =>
    if c = '.' then
      let fp := takeDigits r
      if ip.1.isEmpty && fp.1.isEmpty then none
      else
        let mag : ℚ := (digitsToNat ip.1 : ℚ) + (digitsToNat fp.1 : ℚ) / (10 : ℚ) ^ fp.1.length
        some (if sr.1 then -mag else mag)
    else if ip.1.isEmpty then none
    else some (intSigned sr.1 (digitsToNat ip.1))
  | [] =>
    if ip.1.isEmpty then none
    else some (intSigned sr.1 (digitsToNat ip.1))

/-- String-level wrapper of `parseFloatChars`. -/
def parseFloatQ (s : String) : Option ℚ :=
  parseFloatChars s.data

/-- The keyword map of `parsePosition` in `StoryboardCard.tsx`:
`{ left: 0, center: 50, right: 100, top: 0, bottom: 100 }`. -/
def positionKeywordMap (p : String) : Option ℚ :=
  if p = "left" then some 0
  else if p = "center" then some 50
  else if p = "right" then some 100
  else if p = "top" then some 0
  else if p = "bottom" then some 100
  else none

/-- The inner `parse` closure of `parsePosition`: keyword lookup first,
then `parseFloat` for tokens ending in `%`, then the default 50.  A
`none` result models the `NaN` produced when a `%`-token has no leading
number. -/
def parsePositionToken (p : String) : Option ℚ :=
  match positionKeywordMap p with
  | some v => some v
  | none => if endsWithPercent p then parseFloatQ p else some 50

/-- Model of `parts[k] || 'center'`: JavaScript replaces a missing or
empty (falsy) token by the string `center`. -/
def orCenter (s : Option String) : String :=
  match s with
  | some str => if str = "" then "center" else str
  | none => "center"

/-- parsePosition from `StoryboardCard.tsx`: splits the position string
on spaces and maps the first two tokens through the keyword/percent
parser; each component is `none` exactly when JavaScript would produce
`NaN`. -/
def parsePosition (posStr : String) : Option ℚ × Option ℚ :=
  let parts := splitOnSpace posStr
  let xStr := orCenter parts[0]?
  let yStr := orCenter parts[1]?
  (parsePositionToken xStr, parsePositionToken yStr)

/-! Crop-rectangle math of `StoryboardCard.tsx` lines 73-76. -/

/-- cropWidth: `100 / (frame.zoom / 100)`. -/
def cropWidth (zoom : ℚ) : ℚ := 100 / (zoom / 100)

/-- cropHeight: `100 / (frame.zoom / 100)`. -/
def cropHeight (zoom : ℚ) : ℚ := 100 / (zoom / 100)

/-- cropLeft: `pos.x * (1 - cropWidth / 100)`. -/
def cropLeft (zoom x : ℚ) : ℚ := x * (1 - cropWidth zoom / 100)

/-- cropTop: `pos.y * (1 - cropHeight / 100)`. -/
def cropTop (zoom y : ℚ) : ℚ := y * (1 - cropHeight zoom / 100)

/-- The drag-start snapshot `dragStart.current` of `StoryboardCard.tsx`:
pointer coordinates, anchor and zoom captured on mouse-down. -/
structure DragStart where
  x : ℚ
  y : ℚ
  posX : ℚ
  posY : ℚ
  zoom : ℚ
deriving DecidableEq, Repr

/-- handleMouseMove from `StoryboardCard.tsx`: one drag tick.  Given the
drag-start snapshot, the current pointer position and the viewport size,
it returns the new `(x, y)` anchor handed to `onChange`, or `none` when
the degenerate-zoom guard `zoomFactor <= 0.01` suppresses the update.
The result depends only on the snapshot and the current pointer, never on
the previous tick's anchor. -/
def handleMouseMove (ds : DragStart) (clientX clientY w h : ℚ) : Option (ℚ × ℚ) :=
  let zoomFactor := ds.zoom / 100 - 1
  if zoomFactor ≤ 1 / 100 then none
  else
    let moveX := (clientX - ds.x) / w * 100 / zoomFactor
    let moveY := (clientY - ds.y) / h * 100 / zoomFactor
    some (max 0 (min 100 (ds.posX - moveX)), max 0 (min 100 (ds.posY - moveY)))

/-! Shot-sequence controller state from `App.tsx`. -/

/-- The asset-list and protocol-cache slice of the `App` component state:
`assets` and `productionProtocol`. -/
structure AppState where
  assets : List VisualAsset
  productionProtocol : String
deriving DecidableEq, Repr

/-- The initial frame produced by the `useState` initializer of `App.tsx`:
`{ image: null, shotType: 'MS', action: '', dialogue: '', zoom: 180,
position: 'center 20%' }`. -/
def initialFrame : Frame :=
  { image := none, shotType := "MS", action := "", dialogue := "",
    zoom := 180, position := "center 20%" }

/-- The initial 27-element frame sequence `Array(27).fill(null).map(...)`. -/
def initialFrames : List Frame := List.replicate 27 initialFrame

/-- handleAssetUpload from `App.tsx`: each finished file read appends one
new asset via `setAssets(prev => [...prev, newAsset])`; the function never
writes `productionProtocol`. -/
def handleAssetUpload (s : AppState) (uploaded : List VisualAsset) : AppState :=
  { s with assets := s.assets ++ uploaded }

/-- removeAsset from `App.tsx`: filters the asset with the given id out of
the list and resets `productionProtocol` to the empty string. -/
def removeAsset (s : AppState) (id : String) : AppState :=
  { assets := s.assets.filter (fun a => !(a.id == id)),
    productionProtocol := "" }

/-- runAnalysisIfNeeded from `App.tsx`: returns the cached protocol when
it is non-empty, errors when no asset exists, and otherwise forwards the
analyzer outcome (`analysisResult` models the awaited
`Gemini.analyzeProductionAssets` call), caching a successful result. -/
def runAnalysisIfNeeded (s : AppState) (analysisResult : Except String String) :
    Except String (String × AppState) :=
  if s.productionProtocol ≠ "" then Except.ok (s.productionProtocol, s)
  else if s.assets = [] then Except.error "请上传至少一张视觉资产作为参考。"
  else
    match analysisResult with
    | Except.ok protocol => Except.ok (protocol, { s with productionProtocol := protocol })
    | Except.error e => Except.error e

/-- Whether `runAnalysisIfNeeded` reaches the analyzer call: only when no
protocol is cached and at least one asset exists. -/
def runAnalysisCallsAnalyzer (s : AppState) : Bool :=
  (s.productionProtocol == "") && !s.assets.isEmpty

/-- Observable outcome of one `performRegeneration` call: the frame list
afterwards, the in-progress flag for the index afterwards, whether the
synthesis call was reached, and the exception escaping the function
(always `none`: the body catches every render error). -/
structure RegenOutcome where
  frames : List Frame
  flagAfter : Bool
  renderCalled : Bool
  thrown : Option String
deriving DecidableEq, Repr

/-- performRegeneration from `App.tsx`.  `flagBefore` is the current
value of `regeneratingIndices[index]` (the code never reads it),
`renderResult` models the awaited `Gemini.generateCinemaFrame` call.
The early guard `if (!currentProtocol && assets.length === 0) return`
leaves everything untouched; otherwise the flag is set, the render call
made, a success merged into the frame at `index` (only its `image`
field), any error caught and logged, and the flag cleared in the
`finally` block. -/
def performRegeneration (flagBefore : Bool) (protocol : String)
    (assets : List VisualAsset) (frames : List Frame) (index : Nat)
    (renderResult : Except String String) : RegenOutcome :=
  if protocol = "" ∧ assets = [] then
    { frames := frames, flagAfter := flagBefore, renderCalled := false, thrown := none }
  else
    match renderResult with
    | Except.ok img =>
      match frames[index]? with
      | some f =>
        { frames := frames.set index { f with image := some img },
          flagAfter := false, renderCalled := true, thrown := none }
      | none =>
        { frames := frames, flagAfter := false, renderCalled := true, thrown := none }
    | Except.error _ =>
      { frames := frames, flagAfter := false, renderCalled := true, thrown := none }

/-- Enabled state of the per-card regenerate button in
`StoryboardCard.tsx`: `disabled={isRegenerating || !frame.action}`. -/
def regenerateButtonEnabled (isRegenerating : Bool) (action : String) : Bool :=
  !isRegenerating && !(action == "")

/-- The field selector of `onChange(index, field, val)`. -/
inductive FrameField where
  | image
  | shotType
  | action
  | dialogue
  | zoom
  | position
deriving DecidableEq, Repr

/-- The `string | number` value handed to `onChange`. -/
inductive FieldVal where
  | str (s : String)
  | num (q : ℚ)
deriving DecidableEq, Repr

/-- The raw assignment `newFrames[idx][field] = val` for the type-correct
field/value combinations the application produces; a mismatched
combination leaves the record unchanged. -/
def setField (f : Frame) : FrameField → FieldVal → Frame
  | FrameField.image, FieldVal.str s => { f with image := some s }
  | FrameField.shotType, FieldVal.str s => { f with shotType := s }
  | FrameField.action, FieldVal.str s => { f with action := s }
  | FrameField.dialogue, FieldVal.str s => { f with dialogue := s }
  | FrameField.position, FieldVal.str s => { f with position := s }
  | FrameField.zoom, FieldVal.num q => { f with zoom := q }
  | _, _ => f

/-- The frame-list update performed by handleFrameChange in `App.tsx`:
the field is assigned, and when the field is `shotType` and the new value
has a registered preset, `zoom` and `position` are overwritten with the
preset pair.  (The asynchronous re-render the code may additionally
trigger does not change the returned list.) -/
def handleFrameChange (frames : List Frame) (idx : Nat) (field : FrameField)
    (v : FieldVal) : List Frame :=
  match frames[idx]? with
  | none => frames
  | some f =>
    let f1 := setField f field v
    let f2 :=
      if field = FrameField.shotType then
        match v with
        | FieldVal.str s =>
          match presetFor s with
          | some p => { f1 with zoom := p.zoom, position := p.position }
          | none => f1
        | FieldVal.num _ => f1
      else f1
    frames.set idx f2

/-- handleRegenerateFrame from `App.tsx`: the direct single-shot
regenerate entry point.  The first component of the result is the alert
message shown to the user (`none` when no alert fires).  Render failures
never produce an alert because `performRegeneration` swallows them. -/
def handleRegenerateFrame (s : AppState) (analysisResult : Except String String)
    (frames : List Frame) (index : Nat) (renderResult : Except String String) :
    Option String × List Frame :=
  if s.assets = [] then (some "请先上传参考图以保持视觉一致性。", frames)
  else
    match runAnalysisIfNeeded s analysisResult with
    | Except.error e => (some e, frames)
    | Except.ok (protocol, s1) =>
      let r := performRegeneration false protocol s1.assets frames index renderResult
      (r.thrown, r.frames)

/-! The two phases of generateFullStoryboard in `App.tsx`. -/

/-- Model of `val || dflt` on JavaScript strings: `undefined` and the
empty string are replaced by the default. -/
def strOr (o : Option String) (d : String) : String :=
  match o with
  | some s => if s = "" then d else s
  | none => d

/-- planStoryboardSequence response handling from `geminiService.ts`
lines 170-176: a JSON parse failure yields `[]`, a parsed array is
truncated to the first 27 entries. -/
def planStoryboardSequence (parsed : Option (List FrameData)) : List FrameData :=
  match parsed with
  | none => []
  | some plan => plan.take 27

/-- The per-record overwrite of the plan phase
(`frames.map((f, i) => ...)` in `generateFullStoryboard`): entry `i` of
the plan (or `{}` when the plan is shorter) supplies `shotType` (default
`MS`) and `action` (default empty), the preset table supplies
`zoom`/`position` (fallback `{zoom: 100, position: 'center center'}`),
and `image` is cleared. -/
def applyPlanEntry (plan : List FrameData) (i : Nat) (f : Frame) : Frame :=
  let p := plan.getD i { shotType := none, action := none }
  let sType := strOr p.shotType "MS"
  let preset := (presetFor sType).getD { zoom := 100, position := "center center" }
  { f with
    image := none, shotType := sType, action := strOr p.action "",
    zoom := preset.zoom, position := preset.position }

/-- Index-passing map, modelling `frames.map((f, i) => ...)`. -/
def mapIdxFrom (g : Nat → Frame → Frame) : Nat → List Frame → List Frame
  | _, [] => []
  | i, f :: rest => g i f :: mapIdxFrom g (i + 1) rest

/-- The plan phase of generateFullStoryboard: the operation throws the
planning error exactly when the plan list is empty
(`if (!plan || plan.length === 0) throw ...`); otherwise every record is
overwritten via `applyPlanEntry` and the new sequence installed. -/
def planPhase (plan : List FrameData) (frames : List Frame) :
    Except String (List Frame) :=
  if plan.length = 0 then Except.error "分镜规划失败，AI 引擎响应异常。"
  else Except.ok (mapIdxFrom (applyPlanEntry plan) 0 frames)

/-- The render loop of generateFullStoryboard, starting at index `i` for
`n` more steps: each step awaits `performRegeneration` for its index
(whose catch block confines any render failure to that shot) and
continues with the next index.  `results i` models the synthesis outcome
for shot `i`. -/
def renderSteps (protocol : String) (assets : List VisualAsset)
    (results : Nat → Except String String) : Nat → Nat → List Frame → List Frame
  | _, 0, fs => fs
  | i, Nat.succ n, fs =>
    renderSteps protocol assets results (i + 1) n
      (performRegeneration false protocol assets fs i (results i)).frames

/-- The full render phase: the loop `for (let i = 0; i < length; i++)`
over the freshly planned frames. -/
def renderPhase (protocol : String) (assets : List VisualAsset)
    (frames : List Frame) (results : Nat → Except String String) : List Frame :=
  renderSteps protocol assets results 0 frames.length frames

/-! Concrete sample data used by closed statements. -/

/-- A sample reference asset. -/
def sampleAsset : VisualAsset :=
  { id := "id1", data := "data:image/png;base64,AAA", type := "other", label := "ref1.png" }

/-- A second sample reference asset, with a different id. -/
def sampleAsset2 : VisualAsset :=
  { id := "id2", data := "data:image/png;base64,BBB", type := "other", label := "ref2.png" }

/-! Helper lemmas about `performRegeneration` and the render loop. -/

/-- Every exit path of `performRegeneration` swallows the exception: the
early return, the success path, and the catch block all let nothing
escape. -/
theorem performRegeneration_thrown (b : Bool) (p : String) (a : List VisualAsset)
    (fs : List Frame) (i : Nat) (r : Except String String) :
    (performRegeneration b p a fs i r).thrown = none := by
  unfold performRegeneration
  split
  · rfl
  · cases r with
    | error e => rfl
    | ok img =>
      rcases hh : fs[i]? with _ | f <;> simp [hh]

/-- A failed synthesis call leaves the frame list untouched. -/
theorem performRegeneration_error_frames (b : Bool) (p : String) (a : List VisualAsset)
    (fs : List Frame) (i : Nat) (e : String) :
    (performRegeneration b p a fs i (Except.error e)).frames = fs := by
  unfold performRegeneration
  split <;> rfl

/-- `performRegeneration` for index `j` never touches any other index. -/
theorem performRegeneration_frames_ne (b : Bool) (p : String) (a : List VisualAsset)
    (fs : List Frame) (j : Nat) (r : Except String String) (i : Nat) (hji : j ≠ i) :
    (performRegeneration b p a fs j r).frames[i]? = fs[i]? := by
  unfold performRegeneration
  split
  · rfl
  · cases r with
    | error e => rfl
    | ok img =>
      rcases hh : fs[j]? with _ | f
      · simp [hh]
      · simp only [hh]
        exact List.getElem?_set_ne hji

/-- A successful synthesis call replaces exactly the `image` field of the
frame at the requested index. -/
theorem performRegeneration_ok_self (b : Bool) (p : String) (a : List VisualAsset)
    (fs : List Frame) (i : Nat) (img : String) (f : Frame)
    (hg : ¬(p = "" ∧ a = [])) (hf : fs[i]? = some f) :
    (performRegeneration b p a fs i (Except.ok img)).frames[i]? =
      some { f with image := some img } := by
  have hlen : i < fs.length := by
    by_contra hcon
    rw [List.getElem?_eq_none (by omega)] at hf
    exact Option.noConfusion hf
  unfold performRegeneration
  rw [if_neg hg]
  simp only [hf]
  exact List.getElem?_set_self hlen

/-- Render-loop steps for indices strictly above `i` leave index `i`
alone. -/
theorem renderSteps_getElem_lt (p : String) (a : List VisualAsset)
    (res : Nat → Except String String) :
    ∀ (n i0 : Nat) (fs : List Frame) (i : Nat), i < i0 →
      (renderSteps p a res i0 n fs)[i]? = fs[i]? := by
  intro n
  induction n with
  | zero => intro i0 fs i _; rfl
  | succ n ih =>
    intro i0 fs i hlt
    show (renderSteps p a res (i0 + 1) n
      (performRegeneration false p a fs i0 (res i0)).frames)[i]? = fs[i]?
    rw [ih (i0 + 1) _ i (by omega)]
    exact performRegeneration_frames_ne _ _ _ _ _ _ _ (by omega)

/-- In the render loop, a shot whose own synthesis call succeeds ends up
with exactly that image, regardless of what happened to any other shot:
failures elsewhere are caught per shot and the loop continues. -/
theorem renderSteps_getElem_ok (p : String) (a : List VisualAsset)
    (res : Nat → Except String String) (hg : ¬(p = "" ∧ a = [])) :
    ∀ (n i0 : Nat) (fs : List Frame) (i : Nat) (img : String) (f : Frame),
      i0 ≤ i → i < i0 + n → res i = Except.ok img → fs[i]? = some f →
      (renderSteps p a res i0 n fs)[i]? = some { f with image := some img } := by
  intro n
  induction n with
  | zero => intro i0 fs i img f h1 h2 _ _; omega
  | succ n ih =>
    intro i0 fs i img f h1 h2 hres hf
    by_cases hi : i = i0
    · subst hi
      show (renderSteps p a res (i + 1) n
        (performRegeneration false p a fs i (res i)).frames)[i]? = _
      rw [renderSteps_getElem_lt p a res n (i + 1) _ i (by omega), hres]
      exact performRegeneration_ok_self _ _ _ _ _ _ _ hg hf
    · show (renderSteps p a res (i0 + 1) n
        (performRegeneration false p a fs i0 (res i0)).frames)[i]? = _
      refine ih (i0 + 1) _ i img f (by omega) (by omega) hres ?_
      rw [performRegeneration_frames_ne _ _ _ _ _ _ _ (Ne.symm hi)]
      exact hf

/-- In the render loop, a shot whose own synthesis call fails keeps its
previous record (its image stays absent), and the failure aborts
nothing. -/
theorem renderSteps_getElem_err (p : String) (a : List VisualAsset)
    (res : Nat → Except String String) :
    ∀ (n i0 : Nat) (fs : List Frame) (i : Nat) (e : String),
      i0 ≤ i → res i = Except.error e →
      (renderSteps p a res i0 n fs)[i]? = fs[i]? := by
  intro n
  induction n with
  | zero => intro i0 fs i e _ _; rfl
  | succ n ih =>
    intro i0 fs i e h1 hres
    by_cases hi : i = i0
    · subst hi
      show (renderSteps p a res (i + 1) n
        (performRegeneration false p a fs i (res i)).frames)[i]? = fs[i]?
      rw [renderSteps_getElem_lt p a res n (i + 1) _ i (by omega), hres,
        performRegeneration_error_frames]
    · show (renderSteps p a res (i0 + 1) n
        (performRegeneration false p a fs i0 (res i0)).frames)[i]? = fs[i]?
      rw [ih (i0 + 1) _ i e (by omega) hres]
      exact performRegeneration_frames_ne _ _ _ _ _ _ _ (Ne.symm hi)

/-- Element `k` of the index-passing map is the mapped element `k` of the
input. -/
theorem mapIdxFrom_getElem (g : Nat → Frame → Frame) :
    ∀ (l : List Frame) (i0 k : Nat),
      (mapIdxFrom g i0 l)[k]? = (l[k]?).map (g (i0 + k)) := by
  intro l
  induction l with
  | nil => intro i0 k; simp [mapIdxFrom]
  | cons f rest ih =>
    intro i0 k
    cases k with
    | zero => simp [mapIdxFrom]
    | succ k =>
      simp only [mapIdxFrom, List.getElem?_cons_succ]
      rw [ih (i0 + 1) k]
      have harith : i0 + 1 + k = i0 + (k + 1) := by omega
      rw [harith]

/-! Claim C1. -/

/-- C1 counterexample: the claim says every mutation of the asset list,
addition included, clears `productionProtocol`.  On the code,
`handleAssetUpload` appends an asset without touching the cache: starting
from a state with cached protocol `PROTOCOL` and one asset, uploading a
second asset leaves the cache at `PROTOCOL`, and the next
`runAnalysisIfNeeded` returns that stale text without reaching the
analyzer. -/
theorem c1_counterexample :
    (handleAssetUpload ⟨[sampleAsset], "PROTOCOL"⟩ [sampleAsset2]).productionProtocol
      = "PROTOCOL"
    ∧ runAnalysisIfNeeded (handleAssetUpload ⟨[sampleAsset], "PROTOCOL"⟩ [sampleAsset2])
        (Except.ok "FRESH")
      = Except.ok ("PROTOCOL", handleAssetUpload ⟨[sampleAsset], "PROTOCOL"⟩ [sampleAsset2])
    ∧ runAnalysisCallsAnalyzer
        (handleAssetUpload ⟨[sampleAsset], "PROTOCOL"⟩ [sampleAsset2]) = false := by
  refine ⟨rfl, by decide, by decide⟩

/-- C1 (amended): removing an asset clears the cached protocol
unconditionally, so the next `runAnalysisIfNeeded` triggers a fresh
analysis; adding an asset via `handleAssetUpload` leaves
`productionProtocol` unchanged, so a protocol cached before the upload is
reused as is. -/
theorem c1_amended :
    (∀ (s : AppState) (id : String), (removeAsset s id).productionProtocol = "")
    ∧ (∀ (s : AppState) (uploaded : List VisualAsset),
        (handleAssetUpload s uploaded).productionProtocol = s.productionProtocol)
    ∧ (∀ s : AppState, s.productionProtocol = "" → s.assets ≠ [] →
        runAnalysisCallsAnalyzer s = true)
    ∧ (∀ (s : AppState) (p : String), s.productionProtocol = "" → s.assets ≠ [] →
        runAnalysisIfNeeded s (Except.ok p)
          = Except.ok (p, { s with productionProtocol := p })) := by
  refine ⟨fun s id => rfl, fun s uploaded => rfl, ?_, ?_⟩
  · intro s hp ha
    simp [runAnalysisCallsAnalyzer, hp, ha]
  · intro s p hp ha
    unfold runAnalysisIfNeeded
    rw [if_neg (by simp [hp]), if_neg ha]

/-- C1 amended witness at concrete states: removal clears a cached
protocol, upload preserves it, and a cleared cache with one asset leads
to a fresh analysis whose result is cached. -/
theorem c1_amended_witness :
    (removeAsset ⟨[sampleAsset], "PROTOCOL"⟩ "id1").productionProtocol = ""
    ∧ (handleAssetUpload ⟨[sampleAsset2], "PROTOCOL"⟩ [sampleAsset]).productionProtocol
        = "PROTOCOL"
    ∧ ((⟨[sampleAsset], ""⟩ : AppState).productionProtocol = ""
        ∧ (⟨[sampleAsset], ""⟩ : AppState).assets ≠ []
        ∧ runAnalysisCallsAnalyzer ⟨[sampleAsset], ""⟩ = true
        ∧ runAnalysisIfNeeded ⟨[sampleAsset], ""⟩ (Except.ok "FRESH")
            = Except.ok ("FRESH", ⟨[sampleAsset], "FRESH"⟩)) :=
  ⟨c1_amended.1 ⟨[sampleAsset], "PROTOCOL"⟩ "id1",
   c1_amended.2.1 ⟨[sampleAsset2], "PROTOCOL"⟩ [sampleAsset],
   rfl, by decide,
   c1_amended.2.2.1 ⟨[sampleAsset], ""⟩ rfl (by decide),
   c1_amended.2.2.2 ⟨[sampleAsset], ""⟩ "FRESH" rfl (by decide)⟩

/-! Claim C2. -/

/-- C2 counterexample: the claim says a second regeneration request for
an index whose in-progress flag is already `true` is rejected or
deduplicated.  On the code, `performRegeneration` never reads the flag:
with the flag for index 0 set (first argument `true`), a cached protocol
and no asset check failing, the call still reaches the synthesis call
(`renderCalled = true`), so two in-flight renders for the same index are
possible. -/
theorem c2_counterexample :
    (performRegeneration true "PROTOCOL" [] initialFrames 0
      (Except.ok "img")).renderCalled = true := by
  decide

/-- C2 (amended): neither `performRegeneration` nor the state it reads
gates on `regeneratingIndices`: whether the synthesis call is made is
independent of the in-progress flag (it depends only on the
protocol/asset guard).  The only deduplication is in the UI layer, where
the per-card regenerate button is disabled while that card's flag is
set. -/
theorem c2_amended :
    (∀ (b1 b2 : Bool) (protocol : String) (assets : List VisualAsset)
        (frames : List Frame) (index : Nat) (r : Except String String),
      (performRegeneration b1 protocol assets frames index r).renderCalled =
        (performRegeneration b2 protocol assets frames index r).renderCalled)
    ∧ (∀ action : String, regenerateButtonEnabled true action = false) := by
  constructor
  · intro b1 b2 protocol assets frames index r
    unfold performRegeneration
    split
    · rfl
    · rfl
  · intro action
    rfl

/-! Claim C3. -/

/-- C3 counterexample: the claim says any plan shorter than 27 entries
fails the whole operation with a planning error and mutates no record.
On the code only an empty plan throws: a one-entry plan (length 1 < 27)
passes the `plan.length === 0` check, and the plan phase overwrites the
sequence — record 0 changes from the `MS` default (zoom 180) to the
planned `CU` with preset zoom 240. -/
theorem c3_counterexample :
    ([({ shotType := some "CU", action := some "c" } : FrameData)].length < 27)
    ∧ (planPhase [{ shotType := some "CU", action := some "c" }] initialFrames).isOk = true
    ∧ ((planPhase [{ shotType := some "CU", action := some "c" }]
          initialFrames).toOption.getD [])[0]?
        = some { image := none, shotType := "CU", action := "c", dialogue := "",
                 zoom := 240, position := "center 15%" }
    ∧ initialFrames[0]? = some initialFrame
    ∧ initialFrame.zoom = 180 := by
  refine ⟨by decide, by decide, by decide, by decide, by decide⟩

/-- C3 (amended): the plan phase fails with the planning error exactly
when the plan list is empty (a planner parse failure already yields the
empty list, and any parsed list is truncated to at most 27 entries); any
non-empty plan of any length succeeds and overwrites every record, the
entries beyond the plan's length falling back to shot type `MS`, empty
action and the `MS` preset. -/
theorem c3_amended :
    (∀ frames : List Frame,
        planPhase [] frames = Except.error "分镜规划失败，AI 引擎响应异常。")
    ∧ (∀ (plan : List FrameData) (frames : List Frame), plan ≠ [] →
        (planPhase plan frames).isOk = true)
    ∧ (∀ parsed : Option (List FrameData), (planStoryboardSequence parsed).length ≤ 27)
    ∧ (∀ (plan : List FrameData) (frames : List Frame) (i : Nat) (f : Frame),
        plan ≠ [] → frames[i]? = some f →
        ((planPhase plan frames).toOption.getD [])[i]? = some (applyPlanEntry plan i f))
    ∧ (∀ (plan : List FrameData) (i : Nat) (f : Frame), plan.length ≤ i →
        applyPlanEntry plan i f =
          { f with
            image := none, shotType := "MS", action := "",
            zoom := 180, position := "center 20%" }) := by
  refine ⟨fun frames => rfl, ?_, ?_, ?_, ?_⟩
  · intro plan frames hne
    unfold planPhase
    rw [if_neg (by simp [List.length_eq_zero, hne])]
    rfl
  · intro parsed
    cases parsed with
    | none => simp [planStoryboardSequence]
    | some plan => simp [planStoryboardSequence, List.length_take_le]
  · intro plan frames i f hne hf
    unfold planPhase
    rw [if_neg (by simp [List.length_eq_zero, hne])]
    show (mapIdxFrom (applyPlanEntry plan) 0 frames)[i]? = _
    rw [mapIdxFrom_getElem, hf]
    simp
  · intro plan i f hlen
    unfold applyPlanEntry
    rw [List.getD_eq_default _ _ hlen]
    rfl

/-- C3 amended witness at concrete inputs: a one-entry plan is non-empty
and succeeds; beyond its length the overwrite installs the `MS`
defaults. -/
theorem c3_amended_witness :
    (([({ shotType := some "CU", action := some "x" } : FrameData)] : List FrameData) ≠ [])
    ∧ (planPhase [{ shotType := some "CU", action := some "x" }] initialFrames).isOk = true
    ∧ initialFrames[5]? = some initialFrame
    ∧ ((planPhase [{ shotType := some "CU", action := some "x" }]
          initialFrames).toOption.getD [])[5]?
        = some (applyPlanEntry [{ shotType := some "CU", action := some "x" }] 5 initialFrame)
    ∧ ([({ shotType := some "CU", action := some "x" } : FrameData)].length ≤ 5)
    ∧ applyPlanEntry [{ shotType := some "CU", action := some "x" }] 5 initialFrame
        = { initialFrame with
            image := none, shotType := "MS", action := "",
            zoom := 180, position := "center 20%" } :=
  ⟨by decide,
   c3_amended.2.1 [{ shotType := some "CU", action := some "x" }] initialFrames (by decide),
   by decide,
   c3_amended.2.2.2.1 [{ shotType := some "CU", action := some "x" }] initialFrames 5
     initialFrame (by decide) (by decide),
   by decide,
   c3_amended.2.2.2.2 [{ shotType := some "CU", action := some "x" }] 5 initialFrame
     (by decide)⟩

/-! Claim C4. -/

/-- C4 counterexample: the claim says a render failure during a direct
single-shot regenerate propagates to the caller.  On the code the
failure is caught inside `performRegeneration` (and only logged): with
one asset, a cached protocol and the synthesis call failing with the
engine's error, `handleRegenerateFrame` raises no alert (`none`) and
leaves the frames unchanged — nothing reaches the user. -/
theorem c4_counterexample :
    handleRegenerateFrame ⟨[sampleAsset], "PROT"⟩ (Except.ok "x") initialFrames 0
        (Except.error "4K Rendering Error: Image not returned by engine.")
      = (none, initialFrames)
    ∧ (performRegeneration false "PROT" [sampleAsset] initialFrames 0
        (Except.error "4K Rendering Error: Image not returned by engine.")).thrown
      = none := by
  refine ⟨by decide, by decide⟩

/-- C4 (amended): a render failure is caught inside
`performRegeneration` in both contexts: it leaves the frame list
unchanged, clears the flag and lets no exception escape; a direct
`handleRegenerateFrame` therefore surfaces no error for it (only
validation/analysis errors alert), and during full-sequence generation a
failure in one shot neither prevents later successful shots from
receiving their image nor disturbs the failed shot's record. -/
theorem c4_amended :
    (∀ (b : Bool) (protocol : String) (assets : List VisualAsset)
        (frames : List Frame) (i : Nat) (e : String),
      ¬(protocol = "" ∧ assets = []) →
      performRegeneration b protocol assets frames i (Except.error e)
        = { frames := frames, flagAfter := false, renderCalled := true, thrown := none })
    ∧ (∀ (s : AppState) (p : String) (frames : List Frame) (i : Nat) (e : String),
        s.assets ≠ [] →
        handleRegenerateFrame s (Except.ok p) frames i (Except.error e) = (none, frames))
    ∧ (∀ (protocol : String) (assets : List VisualAsset) (frames : List Frame)
        (results : Nat → Except String String) (i : Nat) (img : String) (f : Frame),
        ¬(protocol = "" ∧ assets = []) → i < frames.length →
        results i = Except.ok img → frames[i]? = some f →
        (renderPhase protocol assets frames results)[i]? = some { f with image := some img })
    ∧ (∀ (protocol : String) (assets : List VisualAsset) (frames : List Frame)
        (results : Nat → Except String String) (i : Nat) (e : String),
        results i = Except.error e →
        (renderPhase protocol assets frames results)[i]? = frames[i]?) := by
  refine ⟨?_, ?_, ?_, ?_⟩
  · intro b protocol assets frames i e hg
    unfold performRegeneration
    rw [if_neg hg]
  · intro s p frames i e hs
    unfold handleRegenerateFrame
    rw [if_neg hs]
    unfold runAnalysisIfNeeded
    by_cases hp : s.productionProtocol ≠ ""
    · rw [if_pos hp]
      show ((performRegeneration false s.productionProtocol s.assets frames i
        (Except.error e)).thrown,
        (performRegeneration false s.productionProtocol s.assets frames i
          (Except.error e)).frames) = (none, frames)
      rw [performRegeneration_thrown, performRegeneration_error_frames]
    · rw [if_neg hp, if_neg hs]
      show ((performRegeneration false p s.assets frames i (Except.error e)).thrown,
        (performRegeneration false p s.assets frames i (Except.error e)).frames)
        = (none, frames)
      rw [performRegeneration_thrown, performRegeneration_error_frames]
  · intro protocol assets frames results i img f hg hilen hres hf
    exact renderSteps_getElem_ok protocol assets results hg frames.length 0 frames i img f
      (by omega) (by omega) hres hf
  · intro protocol assets frames results i e hres
    exact renderSteps_getElem_err protocol assets results frames.length 0 frames i e
      (by omega) hres

/-- C4 amended witness at concrete inputs: a failed render during a
direct regenerate surfaces nothing; in a full-sequence render where shot
0 fails and shot 1 succeeds, shot 1 still gets its image and shot 0 keeps
its record. -/
theorem c4_amended_witness :
    (¬(("PROT2" : String) = "" ∧ ([sampleAsset] : List VisualAsset) = []))
    ∧ performRegeneration false "PROT2" [sampleAsset] initialFrames 1 (Except.error "boom")
        = { frames := initialFrames, flagAfter := false, renderCalled := true, thrown := none }
    ∧ handleRegenerateFrame ⟨[sampleAsset2], ""⟩ (Except.ok "PROT2") initialFrames 2
        (Except.error "boom") = (none, initialFrames)
    ∧ (renderPhase "PROT2" [sampleAsset]
        initialFrames (fun j => if j = 0 then Except.error "boom" else Except.ok "img"))[1]?
        = some { initialFrame with image := some "img" }
    ∧ (renderPhase "PROT2" [sampleAsset]
        initialFrames (fun j => if j = 0 then Except.error "boom" else Except.ok "img"))[0]?
        = initialFrames[0]? :=
  ⟨by decide,
   c4_amended.1 false "PROT2" [sampleAsset] initialFrames 1 "boom" (by decide),
   c4_amended.2.1 ⟨[sampleAsset2], ""⟩ "PROT2" initialFrames 2 "boom" (by decide),
   c4_amended.2.2.1 "PROT2" [sampleAsset] initialFrames
     (fun j => if j = 0 then Except.error "boom" else Except.ok "img") 1 "img" initialFrame
     (by decide) (by decide) (by decide) (by decide),
   c4_amended.2.2.2 "PROT2" [sampleAsset] initialFrames
     (fun j => if j = 0 then Except.error "boom" else Except.ok "img") 0 "boom" (by decide)⟩

/-! Claim C5. -/

/-- C5: for every zoom in [100, 350] and every anchor with both
components in [0, 100], the crop rectangle of `StoryboardCard.tsx`
satisfies `left >= 0`, `top >= 0`, `left + width <= 100` and
`top + height <= 100` (exactly, in rational arithmetic); at `zoom = 100`
the crop is the full image regardless of the anchor. -/
theorem c5_crop_bounds (zoom x y : ℚ) (h1 : 100 ≤ zoom) (h2 : zoom ≤ 350)
    (hx0 : 0 ≤ x) (hx1 : x ≤ 100) (hy0 : 0 ≤ y) (hy1 : y ≤ 100) :
    0 ≤ cropLeft zoom x ∧ 0 ≤ cropTop zoom y
    ∧ cropLeft zoom x + cropWidth zoom ≤ 100
    ∧ cropTop zoom y + cropHeight zoom ≤ 100
    ∧ (zoom = 100 → cropWidth zoom = 100 ∧ cropHeight zoom = 100
        ∧ cropLeft zoom x = 0 ∧ cropTop zoom y = 0) := by
  have hz : (0 : ℚ) < zoom := by linarith
  have hw : cropWidth zoom = 10000 / zoom := by
    unfold cropWidth
    rw [div_div_eq_mul_div]
    norm_num
  have hwpos : 0 < cropWidth zoom := by
    rw [hw]
    positivity
  have hw100 : cropWidth zoom ≤ 100 := by
    rw [hw, div_le_iff₀ hz]
    linarith
  have hche : cropHeight zoom = cropWidth zoom := rfl
  have hhpos : 0 < cropHeight zoom := by rw [hche]; exact hwpos
  have hh100 : cropHeight zoom ≤ 100 := by rw [hche]; exact hw100
  have hfacw : 0 ≤ 1 - cropWidth zoom / 100 := by linarith
  have hfach : 0 ≤ 1 - cropHeight zoom / 100 := by linarith
  refine ⟨mul_nonneg hx0 hfacw, mul_nonneg hy0 hfach, ?_, ?_, ?_⟩
  · show x * (1 - cropWidth zoom / 100) + cropWidth zoom ≤ 100
    nlinarith [mul_nonneg (sub_nonneg.mpr hx1) (sub_nonneg.mpr hw100)]
  · show y * (1 - cropHeight zoom / 100) + cropHeight zoom ≤ 100
    nlinarith [mul_nonneg (sub_nonneg.mpr hy1) (sub_nonneg.mpr hh100)]
  · intro hz100
    subst hz100
    refine ⟨?_, ?_, ?_, ?_⟩ <;> norm_num [cropWidth, cropHeight, cropLeft, cropTop]

/-- C5 witness at zoom 200 and anchor (50, 25): all hypotheses hold and
the crop rectangle stays in bounds. -/
theorem c5_crop_bounds_witness :
    ((100 : ℚ) ≤ 200 ∧ (200 : ℚ) ≤ 350 ∧ (0 : ℚ) ≤ 50 ∧ (50 : ℚ) ≤ 100
      ∧ (0 : ℚ) ≤ 25 ∧ (25 : ℚ) ≤ 100)
    ∧ (0 ≤ cropLeft 200 50 ∧ 0 ≤ cropTop 200 25
        ∧ cropLeft 200 50 + cropWidth 200 ≤ 100
        ∧ cropTop 200 25 + cropHeight 200 ≤ 100
        ∧ ((200 : ℚ) = 100 → cropWidth 200 = 100 ∧ cropHeight 200 = 100
            ∧ cropLeft 200 50 = 0 ∧ cropTop 200 25 = 0)) :=
  ⟨⟨by decide, by decide, by decide, by decide, by decide, by decide⟩,
   c5_crop_bounds 200 50 25 (by decide) (by decide) (by decide) (by decide)
     (by decide) (by decide)⟩

/-! Claim C6. -/

/-- C6: `parsePosition` splits on spaces and maps each of the first two
tokens through the keyword table (`left`/`top` 0, `center` 50, `right` /
`bottom` 100), parses `%`-tokens with `parseFloat`, defaults every other
token to 50, and treats a missing second token as `center`; in
particular `"left top"` gives (0, 0), `"center"` gives (50, 50) and
`"30% 70%"` gives (30, 70). -/
theorem c6_parsePosition :
    parsePosition "left top" = (some 0, some 0)
    ∧ parsePosition "center" = (some 50, some 50)
    ∧ parsePosition "30% 70%" = (some 30, some 70)
    ∧ (parsePositionToken "left" = some 0 ∧ parsePositionToken "center" = some 50
        ∧ parsePositionToken "right" = some 100 ∧ parsePositionToken "top" = some 0
        ∧ parsePositionToken "bottom" = some 100)
    ∧ (∀ p : String, positionKeywordMap p = none → endsWithPercent p = true →
        parsePositionToken p = parseFloatQ p)
    ∧ (∀ p : String, positionKeywordMap p = none → endsWithPercent p = false →
        parsePositionToken p = some 50)
    ∧ (∀ s t : String, splitOnSpace s = [t] → (parsePosition s).2 = some 50)
    ∧ (∀ s : String, parsePosition s =
        (parsePositionToken (orCenter (splitOnSpace s)[0]?),
         parsePositionToken (orCenter (splitOnSpace s)[1]?))) := by
  refine ⟨by decide, by decide, by decide,
    ⟨by decide, by decide, by decide, by decide, by decide⟩, ?_, ?_, ?_, fun s => rfl⟩
  · intro p h1 h2
    simp [parsePositionToken, h1, h2]
  · intro p h1 h2
    simp [parsePositionToken, h1, h2]
  · intro s t hsplit
    simp only [parsePosition, hsplit, List.getElem?_cons_succ, List.getElem?_nil]
    decide

/-- C6 witness at concrete tokens: a non-keyword percent token parses
through `parseFloat`, a non-keyword plain token falls back to 50, and a
one-token position string defaults its vertical component to center. -/
theorem c6_parsePosition_witness :
    (positionKeywordMap "33%" = none ∧ endsWithPercent "33%" = true
      ∧ parsePositionToken "33%" = parseFloatQ "33%")
    ∧ (positionKeywordMap "abc" = none ∧ endsWithPercent "abc" = false
      ∧ parsePositionToken "abc" = some 50)
    ∧ (splitOnSpace "left" = ["left"] ∧ (parsePosition "left").2 = some 50) := by
  obtain ⟨-, -, -, -, h5, h6, h7, -⟩ := c6_parsePosition
  exact ⟨⟨by decide, by decide, h5 "33%" (by decide) (by decide)⟩,
    ⟨by decide, by decide, h6 "abc" (by decide) (by decide)⟩,
    ⟨by decide, h7 "left" "left" (by decide)⟩⟩

/-! Claim C7. -/

/-- C7: a drag tick is a pure function of the drag-start snapshot, the
current pointer and the viewport: when `zoom/100 - 1 <= 0.01` (so in
particular whenever zoom <= 100) the update is suppressed, and otherwise
each axis is the start anchor minus
`(pointerDelta / viewportExtent) * 100 / (zoom/100 - 1)`, clamped to
[0, 100]. -/
theorem c7_updateDrag (ds : DragStart) (cx cy w h : ℚ) :
    (ds.zoom / 100 - 1 ≤ 1 / 100 → handleMouseMove ds cx cy w h = none)
    ∧ (ds.zoom ≤ 100 → handleMouseMove ds cx cy w h = none)
    ∧ (1 / 100 < ds.zoom / 100 - 1 →
        handleMouseMove ds cx cy w h =
          some (max 0 (min 100 (ds.posX - (cx - ds.x) / w * 100 / (ds.zoom / 100 - 1))),
                max 0 (min 100 (ds.posY - (cy - ds.y) / h * 100 / (ds.zoom / 100 - 1))))) := by
  refine ⟨?_, ?_, ?_⟩
  · intro hle
    unfold handleMouseMove
    rw [if_pos hle]
  · intro hz
    have hle : ds.zoom / 100 - 1 ≤ 1 / 100 := by
      have hdiv : ds.zoom / 100 ≤ 1 := by
        rw [div_le_one (by norm_num : (0 : ℚ) < 100)]
        exact hz
      linarith
    unfold handleMouseMove
    rw [if_pos hle]
  · intro hgt
    unfold handleMouseMove
    rw [if_neg (not_le.mpr hgt)]

/-- C7 witness: at zoom 100 the tick is suppressed; at zoom 200 with the
pointer moved (10, 20) in a 100 by 100 viewport the tick produces the
clamped pan formula. -/
theorem c7_updateDrag_witness :
    ((100 : ℚ) ≤ 100 ∧ handleMouseMove ⟨0, 0, 50, 50, 100⟩ 10 20 100 100 = none)
    ∧ ((1 : ℚ) / 100 < 200 / 100 - 1
        ∧ handleMouseMove ⟨0, 0, 50, 50, 200⟩ 10 20 100 100 =
            some (max 0 (min 100 (50 - (10 - 0) / 100 * 100 / (200 / 100 - 1))),
                  max 0 (min 100 (50 - (20 - 0) / 100 * 100 / (200 / 100 - 1))))) :=
  ⟨⟨by decide, (c7_updateDrag ⟨0, 0, 50, 50, 100⟩ 10 20 100 100).2.1 (by decide)⟩,
   ⟨by norm_num, (c7_updateDrag ⟨0, 0, 50, 50, 200⟩ 10 20 100 100).2.2 (by norm_num)⟩⟩

/-! Claim C8. -/

/-- C8: updating `shotType` through `handleFrameChange` to any value
registered in the preset table also overwrites that record's `zoom` and
`position` with the registered preset pair, whatever they were before. -/
theorem c8_shotType_preset (frames : List Frame) (idx : Nat) (s : String)
    (p : ShotPreset) (f : Frame) (hf : frames[idx]? = some f)
    (hp : presetFor s = some p) :
    (handleFrameChange frames idx FrameField.shotType (FieldVal.str s))[idx]? =
      some { f with shotType := s, zoom := p.zoom, position := p.position } := by
  have hlen : idx < frames.length := by
    by_contra hcon
    rw [List.getElem?_eq_none (by omega)] at hf
    exact Option.noConfusion hf
  unfold handleFrameChange
  rw [hf]
  simp only [setField, hp]
  rw [List.getElem?_set_self hlen]
  simp

/-- C8 witness: switching record 0 from the `MS` default to `CU`
installs the `CU` preset zoom 240 and position `center 15%`. -/
theorem c8_shotType_preset_witness :
    initialFrames[0]? = some initialFrame
    ∧ presetFor "CU" = some { zoom := 240, position := "center 15%" }
    ∧ (handleFrameChange initialFrames 0 FrameField.shotType (FieldVal.str "CU"))[0]?
        = some { initialFrame with shotType := "CU", zoom := 240, position := "center 15%" } :=
  ⟨by decide, by decide,
   c8_shotType_preset initialFrames 0 "CU" { zoom := 240, position := "center 15%" }
     initialFrame (by decide) (by decide)⟩

/-! Claim C9. -/

/-- C9: a successful single-shot regeneration replaces only the `image`
field of the regenerated record — its other fields are kept verbatim —
and every other record of the sequence is untouched. -/
theorem c9_regen_success_isolated (b : Bool) (protocol : String)
    (assets : List VisualAsset) (frames : List Frame) (i : Nat) (img : String)
    (f : Frame) (hg : ¬(protocol = "" ∧ assets = [])) (hf : frames[i]? = some f) :
    (performRegeneration b protocol assets frames i (Except.ok img)).frames[i]?
        = some { f with image := some img }
    ∧ (∀ j : Nat, j ≠ i →
        (performRegeneration b protocol assets frames i (Except.ok img)).frames[j]?
          = frames[j]?) :=
  ⟨performRegeneration_ok_self b protocol assets frames i img f hg hf,
   fun j hj =>
     performRegeneration_frames_ne b protocol assets frames i (Except.ok img) j
       (Ne.symm hj)⟩

/-- C9 witness: regenerating shot 2 with a fresh image replaces exactly
its image (all other fields matching `initialFrame`) and leaves shot 3
alone. -/
theorem c9_regen_success_witness :
    (¬(("P" : String) = "" ∧ ([sampleAsset2] : List VisualAsset) = []))
    ∧ initialFrames[2]? = some initialFrame
    ∧ (performRegeneration false "P" [sampleAsset2] initialFrames 2
        (Except.ok "newimg")).frames[2]? = some { initialFrame with image := some "newimg" }
    ∧ (performRegeneration false "P" [sampleAsset2] initialFrames 2
        (Except.ok "newimg")).frames[3]? = initialFrames[3]? :=
  ⟨by decide, by decide,
   (c9_regen_success_isolated false "P" [sampleAsset2] initialFrames 2 "newimg"
     initialFrame (by decide) (by decide)).1,
   (c9_regen_success_isolated false "P" [sampleAsset2] initialFrames 2 "newimg"
     initialFrame (by decide) (by decide)).2 3 (by decide)⟩

/-! Claim C10. -/

/-- C10: `parsePosition` does not clamp explicit percentage tokens — a
`%`-token is returned at its raw `parseFloat` value — so the input
`"150% -20%"` yields the out-of-domain anchor (150, -20). -/
theorem c10_no_clamp :
    parsePosition "150% -20%" = (some 150, some (-20))
    ∧ (100 : ℚ) < 150 ∧ (-20 : ℚ) < 0
    ∧ (∀ (p : String) (v : ℚ), positionKeywordMap p = none → endsWithPercent p = true →
        parseFloatQ p = some v → parsePositionToken p = some v) := by
  refine ⟨by decide, by decide, by decide, ?_⟩
  intro p v h1 h2 h3
  simp [parsePositionToken, h1, h2, h3]

/-- C10 witness: the token `150%` is no keyword, ends in `%`, parses to
150 and is passed through unclamped. -/
theorem c10_no_clamp_witness :
    positionKeywordMap "150%" = none ∧ endsWithPercent "150%" = true
    ∧ parseFloatQ "150%" = some 150 ∧ parsePositionToken "150%" = some 150 :=
  ⟨by decide, by decide, by decide,
   c10_no_clamp.2.2.2 "150%" 150 (by decide) (by decide) (by decide)⟩

end CineBoard
